import Mathlib

/-!
Shallow embedding of the rustshark capture core
(`src/backend/src/capture/manager.rs`, `src/backend/src/capture/parser.rs`,
`src/backend/src/models/{packet,stats,config}.rs`) and proofs about the
spec's claims.

Modelling conventions:
* `u64` / `usize` become `Nat` (no overflow-relevant arithmetic occurs in
  the modelled code paths: counters only increase).
* `DateTime<Utc>` / `Instant` become `Nat` (milliseconds of wall clock).
* `HashMap<String, usize>` becomes an association list `List (String × Nat)`
  with `entry(k).or_insert(0) += 1` semantics; iteration order of the map is
  irrelevant to the claims about it.
* The `f64` rate fields (`packet_rate`, `data_rate`) and the opaque
  `serde_json` fields (`headers`, `metadata`) are not modelled: no claim
  mentions them and floating point is out of scope.
* Fallible operations return `Except`.
* Concurrency is modelled by making the environment explicit: the outcome of
  each `try_lock` attempt, kernel `next_packet` call, and so on is an input
  to the corresponding step function, so every interleaving the real program
  can exhibit corresponds to some input of the model.
-/

namespace RustShark

/-! ### Counter maps (`HashMap<String, usize>` used by `CaptureStats`) -/

/-- `stats.protocols.entry(k).or_insert(0) += 1` on an association list. -/
def bump (m : List (String × Nat)) (k : String) : List (String × Nat) :=
  match m with
  | [] => [(k, 1)]
  | (k', v) :: rest => if k' = k then (k', v + 1) :: rest else (k', v) :: bump rest k

/-- `sum(map.values())`. -/
def sumValues (m : List (String × Nat)) : Nat := (m.map Prod.snd).sum

theorem sumValues_bump (m : List (String × Nat)) (k : String) :
    sumValues (bump m k) = sumValues m + 1 := by
  induction m with
  | nil => simp [bump, sumValues]
  | cons hd tl ih =>
    obtain ⟨k', v⟩ := hd
    by_cases hk : k' = k
    · simp [bump, hk, sumValues]
      ring
    · simp [bump, hk, sumValues] at ih ⊢
      omega

/-! ### `CaptureStats` (`src/backend/src/models/stats.rs`) -/

/-- `CaptureStats`. The `f64` fields `packet_rate` and `data_rate` are not
modelled (no claim concerns them). Times are wall-clock milliseconds. -/
structure CaptureStats where
  total_packets : Nat
  total_bytes : Nat
  protocols : List (String × Nat)
  sources : List (String × Nat)
  destinations : List (String × Nat)
  start_time : Option Nat
  end_time : Option Nat
  errors : Nat
deriving Repr, DecidableEq

/-- `CaptureStats::default()`. -/
def CaptureStats.default : CaptureStats :=
  { total_packets := 0, total_bytes := 0, protocols := [], sources := [],
    destinations := [], start_time := none, end_time := none, errors := 0 }

/-! ### IP addresses and `Packet` (`src/backend/src/models/packet.rs`) -/

/-- `std::net::IpAddr`. -/
inductive IpAddr where
  | v4 (a b c d : Nat)
  | v6 (bytes : List Nat)
deriving Repr, DecidableEq

/-- `IpAddr::to_string()` — used only as a key in the `sources` /
`destinations` maps, so only injectivity per address matters here; IPv6 is
rendered without zero-compression. -/
def IpAddr.render : IpAddr → String
  | .v4 a b c d =>
      toString a ++ "." ++ toString b ++ "." ++ toString c ++ "." ++ toString d
  | .v6 bytes => "v6:" ++ String.intercalate ":" (bytes.map toString)

/-- `Packet`, minus the opaque JSON fields `headers` and `metadata`
(no claim mentions them). `raw_data` is the captured byte sequence. -/
structure Packet where
  id : Nat
  timestamp : Nat
  interface : String
  length : Nat
  protocol : String
  source_ip : Option IpAddr
  destination_ip : Option IpAddr
  source_port : Option Nat
  destination_port : Option Nat
  source_mac : Option String
  destination_mac : Option String
  raw_data : List Nat
  payload : Option (List Nat)
deriving Repr, DecidableEq

/-! ### The per-packet stats update
(processor task body, `manager.rs` lines 540-576) -/

/-- The statistics mutation performed by the processor task once
`stats.try_lock()` has succeeded for a successfully parsed packet
(`manager.rs` 541-559): bump the three counters and the per-protocol /
per-source / per-destination maps.  The `packet_rate` / `data_rate`
recomputation (561-569) touches only the unmodelled `f64` fields. -/
def statsUpdateOnPacket (s : CaptureStats) (p : Packet) (data_len : Nat) :
    CaptureStats :=
  let s := { s with total_packets := s.total_packets + 1,
                    total_bytes := s.total_bytes + data_len }
  let s := { s with protocols := bump s.protocols p.protocol }
  let s := match p.source_ip with
    | some ip => { s with sources := bump s.sources ip.render }
    | none => s
  match p.destination_ip with
  | some ip => { s with destinations := bump s.destinations ip.render }
  | none => s

/-- The statistics mutation on a parse error once `try_lock` succeeded
(`manager.rs` 583-585): `stats.errors += 1`. -/
def statsOnError (s : CaptureStats) : CaptureStats :=
  { s with errors := s.errors + 1 }

/-- The reachable states of the shared stats aggregate: reset at the start of
a capture (`manager.rs` 146-149, 493-495: default with `start_time` set),
then mutated only by the processor task's success or error branches. -/
inductive ReachableStats : CaptureStats → Prop where
  | init (t : Option Nat) :
      ReachableStats { CaptureStats.default with start_time := t }
  | update {s : CaptureStats} (p : Packet) (n : Nat) :
      ReachableStats s → ReachableStats (statsUpdateOnPacket s p n)
  | error {s : CaptureStats} :
      ReachableStats s → ReachableStats (statsOnError s)

theorem statsUpdateOnPacket_protocols (s : CaptureStats) (p : Packet) (n : Nat) :
    (statsUpdateOnPacket s p n).protocols = bump s.protocols p.protocol := by
  unfold statsUpdateOnPacket
  cases p.source_ip <;> cases p.destination_ip <;> rfl

theorem statsUpdateOnPacket_total (s : CaptureStats) (p : Packet) (n : Nat) :
    (statsUpdateOnPacket s p n).total_packets = s.total_packets + 1 := by
  unfold statsUpdateOnPacket
  cases p.source_ip <;> cases p.destination_ip <;> rfl

theorem statsUpdateOnPacket_bytes (s : CaptureStats) (p : Packet) (n : Nat) :
    (statsUpdateOnPacket s p n).total_bytes = s.total_bytes + n := by
  unfold statsUpdateOnPacket
  cases p.source_ip <;> cases p.destination_ip <;> rfl

theorem statsUpdateOnPacket_errors (s : CaptureStats) (p : Packet) (n : Nat) :
    (statsUpdateOnPacket s p n).errors = s.errors := by
  unfold statsUpdateOnPacket
  cases p.source_ip <;> cases p.destination_ip <;> rfl

/-- The protocols-sum invariant holds in every reachable stats state,
with or without errors. -/
theorem reachable_sum_protocols {s : CaptureStats} (h : ReachableStats s) :
    sumValues s.protocols = s.total_packets := by
  induction h with
  | init t => rfl
  | update p n _ ih =>
      rw [statsUpdateOnPacket_protocols, statsUpdateOnPacket_total,
        sumValues_bump, ih]
  | error _ ih => exact ih

/-- C7: in every reachable state of the stats aggregate with `errors == 0`,
the sum of the counts in the `protocols` map equals `total_packets`: the
processor task increments `total_packets` and the matching protocol entry in
the same critical section (`manager.rs` 541-547), the error branch touches
neither, and the reset at capture start zeroes both. -/
theorem C7_protocols_sum_eq_total (s : CaptureStats)
    (h : ReachableStats s) (_herr : s.errors = 0) :
    sumValues s.protocols = s.total_packets :=
  reachable_sum_protocols h

/-- A sample packet: an IPv4/TCP frame record as the parser would produce it
(only the fields that matter to the stats update are load-bearing). -/
def samplePacket : Packet :=
  { id := 1, timestamp := 10, interface := "eth0", length := 60,
    protocol := "TCP",
    source_ip := some (.v4 10 0 0 1), destination_ip := some (.v4 10 0 0 2),
    source_port := some 443, destination_port := some 50000,
    source_mac := some "aa:bb:cc:dd:ee:ff", destination_mac := some "11:22:33:44:55:66",
    raw_data := List.replicate 60 0, payload := none }

theorem C7_protocols_sum_eq_total_witness :
    sumValues (statsUpdateOnPacket
        { CaptureStats.default with start_time := some 5 } samplePacket 60).protocols
      = (statsUpdateOnPacket
        { CaptureStats.default with start_time := some 5 } samplePacket 60).total_packets :=
  C7_protocols_sum_eq_total _
    (.update samplePacket 60 (.init (some 5))) (by decide)

/-! ### Buffer eviction (`CaptureManager::enforce_buffer_limit`,
`manager.rs` 905-931)

The packet store is a `DashMap<u64, Packet>` whose iteration order is
unspecified.  The store contents at the moment of the call are therefore
modelled as the list of `(id, timestamp)` pairs *in iteration order*; the
function sorts that list by timestamp with Rust's stable `sort_by` (the
comparator looks only at the timestamp) and removes the first
`len - buffer_size` ids from the map. -/

/-- One step of a stable insertion sort keyed on the timestamp
(second component); ties keep the earlier-inserted element first, which is
exactly the tie behaviour of Rust's stable `sort_by` on this comparator. -/
def ordInsertTs (x : Nat × Nat) : List (Nat × Nat) → List (Nat × Nat)
  | [] => [x]
  | y :: ys => if x.2 ≤ y.2 then x :: y :: ys else y :: ordInsertTs x ys

/-- `packet_ids.sort_by(|a, b| a.1.cmp(&b.1))` (`manager.rs` 918): a stable
sort of the iteration-order list by timestamp only.  Stable sorts agree on
their output, so insertion sort is an exact model. -/
def sortByTs : List (Nat × Nat) → List (Nat × Nat)
  | [] => []
  | x :: xs => ordInsertTs x (sortByTs xs)

/-- `packets.remove(&id)` (`manager.rs` 927): remove the entry with the given
key (a `DashMap` holds at most one entry per key). -/
def removeId (l : List (Nat × Nat)) (id : Nat) : List (Nat × Nat) :=
  match l with
  | [] => []
  | p :: ps => if p.1 = id then ps else p :: removeId ps id

/-- `CaptureManager::enforce_buffer_limit` (`manager.rs` 905-931) on the
iteration-order view of the store: do nothing within the limit, otherwise
sort by timestamp (stable) and remove the first `len - buffer_size` ids.
The loop's `i < packet_ids.len()` guard is vacuous since
`to_remove ≤ packets.len()`. -/
def enforce_buffer_limit (packets : List (Nat × Nat)) (buffer_size : Nat) :
    List (Nat × Nat) :=
  if packets.length ≤ buffer_size then packets
  else
    let sorted := sortByTs packets
    let to_remove := packets.length - buffer_size
    (((sorted.take to_remove).map Prod.fst)).foldl removeId packets

theorem ordInsertTs_perm (x : Nat × Nat) (l : List (Nat × Nat)) :
    List.Perm (ordInsertTs x l) (x :: l) := by
  induction l with
  | nil => rfl
  | cons y ys ih =>
    by_cases h : x.2 ≤ y.2
    · simp [ordInsertTs, h]
    · simp only [ordInsertTs, if_neg h]
      exact (ih.cons y).trans (List.Perm.swap x y ys)

theorem sortByTs_perm (l : List (Nat × Nat)) : List.Perm (sortByTs l) l := by
  induction l with
  | nil => rfl
  | cons x xs ih => exact (ordInsertTs_perm x (sortByTs xs)).trans (ih.cons x)

theorem ordInsertTs_pairwise (x : Nat × Nat) (l : List (Nat × Nat))
    (h : l.Pairwise (fun a b => a.2 ≤ b.2)) :
    (ordInsertTs x l).Pairwise (fun a b => a.2 ≤ b.2) := by
  induction l with
  | nil => simp [ordInsertTs]
  | cons y ys ih =>
    rcases List.pairwise_cons.mp h with ⟨hy, hys⟩
    by_cases hxy : x.2 ≤ y.2
    · simp only [ordInsertTs, if_pos hxy]
      refine List.pairwise_cons.mpr ⟨?_, h⟩
      intro b hb
      simp only [List.mem_cons] at hb
      rcases hb with hb | hb
      · subst hb; omega
      · exact le_trans hxy (hy b hb)
    · simp only [ordInsertTs, if_neg hxy]
      refine List.pairwise_cons.mpr ⟨?_, ih hys⟩
      intro b hb
      have hmem := (ordInsertTs_perm x ys).mem_iff.mp hb
      simp only [List.mem_cons] at hmem
      rcases hmem with hb' | hb'
      · subst hb'; omega
      · exact hy b hb'

theorem sortByTs_pairwise (l : List (Nat × Nat)) :
    (sortByTs l).Pairwise (fun a b => a.2 ≤ b.2) := by
  induction l with
  | nil => exact List.Pairwise.nil
  | cons x xs ih => exact ordInsertTs_pairwise x (sortByTs xs) ih

theorem mem_removeId (l : List (Nat × Nat)) (id : Nat) (p : Nat × Nat)
    (hnd : (l.map Prod.fst).Nodup) :
    p ∈ removeId l id ↔ p ∈ l ∧ p.1 ≠ id := by
  induction l with
  | nil => simp [removeId]
  | cons q qs ih =>
    simp only [List.map_cons, List.nodup_cons] at hnd
    by_cases hq : q.1 = id
    · subst hq
      simp only [removeId, if_pos rfl, List.mem_cons]
      constructor
      · intro hp
        refine ⟨Or.inr hp, ?_⟩
        intro hpq
        exact hnd.1 (hpq ▸ List.mem_map_of_mem Prod.fst hp)
      · rintro ⟨hp | hp, hne⟩
        · exact absurd (congrArg Prod.fst hp) hne
        · exact hp
    · simp only [removeId, if_neg hq, List.mem_cons, ih hnd.2]
      constructor
      · rintro (rfl | ⟨hp, hne⟩)
        · exact ⟨Or.inl rfl, hq⟩
        · exact ⟨Or.inr hp, hne⟩
      · rintro ⟨rfl | hp, hne⟩
        · exact Or.inl rfl
        · exact Or.inr ⟨hp, hne⟩

theorem map_fst_removeId_sub (l : List (Nat × Nat)) (id : Nat) (a : Nat)
    (ha : a ∈ (removeId l id).map Prod.fst) : a ∈ l.map Prod.fst := by
  induction l with
  | nil => simp [removeId] at ha
  | cons q qs ih =>
    by_cases hq : q.1 = id
    · simp only [removeId, if_pos hq] at ha
      exact List.map_cons Prod.fst q qs ▸ List.mem_cons_of_mem _ ha
    · simp only [removeId, if_neg hq, List.map_cons, List.mem_cons] at ha ⊢
      rcases ha with ha | ha
      · exact Or.inl ha
      · exact Or.inr (ih ha)

theorem nodup_removeId (l : List (Nat × Nat)) (id : Nat)
    (hnd : (l.map Prod.fst).Nodup) : ((removeId l id).map Prod.fst).Nodup := by
  induction l with
  | nil => simp [removeId]
  | cons q qs ih =>
    simp only [List.map_cons, List.nodup_cons] at hnd
    by_cases hq : q.1 = id
    · simpa [removeId, hq] using hnd.2
    · simp only [removeId, if_neg hq, List.map_cons, List.nodup_cons]
      exact ⟨fun h => hnd.1 (map_fst_removeId_sub qs id q.1 h), ih hnd.2⟩

theorem mem_map_fst_removeId (l : List (Nat × Nat)) (id a : Nat)
    (ha : a ∈ l.map Prod.fst) (hne : a ≠ id) :
    a ∈ (removeId l id).map Prod.fst := by
  induction l with
  | nil => simp at ha
  | cons q qs ih =>
    simp only [List.map_cons, List.mem_cons] at ha
    by_cases hq : q.1 = id
    · simp only [removeId, if_pos hq]
      rcases ha with ha | ha
      · exact absurd (ha.trans hq) hne
      · exact ha
    · simp only [removeId, if_neg hq, List.map_cons, List.mem_cons]
      rcases ha with ha | ha
      · exact Or.inl ha
      · exact Or.inr (ih ha)

theorem length_removeId (l : List (Nat × Nat)) (id : Nat)
    (hmem : id ∈ l.map Prod.fst) : (removeId l id).length + 1 = l.length := by
  induction l with
  | nil => simp at hmem
  | cons q qs ih =>
    by_cases hq : q.1 = id
    · simp [removeId, hq]
    · simp only [List.map_cons, List.mem_cons] at hmem
      rcases hmem with hmem | hmem
      · exact absurd hmem.symm hq
      · simp only [removeId, if_neg hq, List.length_cons, ih hmem]

theorem foldl_removeId_mem (S : List Nat) (l : List (Nat × Nat)) (p : Nat × Nat)
    (hnd : (l.map Prod.fst).Nodup) :
    p ∈ S.foldl removeId l ↔ p ∈ l ∧ p.1 ∉ S := by
  induction S generalizing l with
  | nil => simp
  | cons id S ih =>
    simp only [List.foldl_cons]
    rw [ih (removeId l id) (nodup_removeId l id hnd),
      mem_removeId l id p hnd]
    simp only [List.mem_cons]
    tauto

theorem foldl_removeId_length (S : List Nat) (l : List (Nat × Nat))
    (hnd : (l.map Prod.fst).Nodup) (hS : S.Nodup)
    (hsub : ∀ a ∈ S, a ∈ l.map Prod.fst) :
    (S.foldl removeId l).length + S.length = l.length := by
  induction S generalizing l with
  | nil => simp
  | cons id S ih =>
    simp only [List.foldl_cons, List.length_cons]
    simp only [List.nodup_cons] at hS
    have hmem : id ∈ l.map Prod.fst := hsub id (List.mem_cons_self id S)
    have hrec := ih (removeId l id) (nodup_removeId l id hnd) hS.2 ?_
    · rw [← length_removeId l id hmem]
      omega
    · intro a ha
      exact mem_map_fst_removeId l id a (hsub a (List.mem_cons_of_mem _ ha))
        (fun h => hS.1 (h ▸ ha))

theorem enforce_buffer_limit_of_gt (l : List (Nat × Nat)) (cap : Nat)
    (h : ¬ l.length ≤ cap) :
    enforce_buffer_limit l cap
      = (((sortByTs l).take (l.length - cap)).map Prod.fst).foldl removeId l := by
  simp only [enforce_buffer_limit, if_neg h]

/-- C2 counterexample: on a store whose iteration order lists id 2 before
id 1, both with timestamp 5, and cap 1, `enforce_buffer_limit` removes id 2
(the earlier-iterated entry — the stable sort never consults the id), not the
lower id 1 as the claim states; the surviving store is `[(1, 5)]`, not
`[(2, 5)]`. -/
theorem C2_tie_break_counterexample :
    enforce_buffer_limit [(2, 5), (1, 5)] 1 = [(1, 5)] ∧
    enforce_buffer_limit [(2, 5), (1, 5)] 1 ≠ [(2, 5)] := by decide

/-- C2 (amended): for every store contents (as its iteration-order list of
`(id, timestamp)` pairs, ids distinct) and every cap, `enforce_buffer_limit`
removes nothing when `count() <= cap`; when `count() > cap` it removes the
oldest packets by timestamp until `count() == cap` exactly — the removed
entries are precisely the first `count() - cap` entries of the stable
timestamp sort, every removed entry being no newer than every kept one —
with timestamp ties broken by the store's iteration order (earlier-iterated
removed first), not by lower id. -/
theorem C2_enforce_limit_amended (l : List (Nat × Nat)) (cap : Nat)
    (hnd : (l.map Prod.fst).Nodup) :
    (l.length ≤ cap → enforce_buffer_limit l cap = l) ∧
    (cap < l.length →
      (enforce_buffer_limit l cap).length = cap ∧
      (∀ p ∈ l, (p ∈ enforce_buffer_limit l cap ↔
         p ∉ (sortByTs l).take (l.length - cap))) ∧
      (∀ p ∈ (sortByTs l).take (l.length - cap),
       ∀ q ∈ enforce_buffer_limit l cap, p.2 ≤ q.2)) := by
  constructor
  · intro h
    simp only [enforce_buffer_limit, if_pos h]
  · intro hlt
    have hle : ¬ l.length ≤ cap := not_le.mpr hlt
    have hperm : List.Perm (sortByTs l) l := sortByTs_perm l
    have hndSorted : ((sortByTs l).map Prod.fst).Nodup :=
      ((hperm.map Prod.fst).nodup_iff).mpr hnd
    have hndS : (((sortByTs l).take (l.length - cap)).map Prod.fst).Nodup := by
      rw [List.map_take]
      exact (List.take_sublist _ _).nodup hndSorted
    have hsubS : ∀ a ∈ ((sortByTs l).take (l.length - cap)).map Prod.fst,
        a ∈ l.map Prod.fst := by
      intro a ha
      rcases List.mem_map.mp ha with ⟨q, hq, rfl⟩
      exact List.mem_map_of_mem Prod.fst (hperm.mem_iff.mp (List.take_subset _ _ hq))
    have hmemTake : ∀ p ∈ l,
        (p.1 ∈ ((sortByTs l).take (l.length - cap)).map Prod.fst ↔
          p ∈ (sortByTs l).take (l.length - cap)) := by
      intro p hp
      constructor
      · intro hpS
        rcases List.mem_map.mp hpS with ⟨q, hq, hq1⟩
        have hql : q ∈ l := hperm.mem_iff.mp (List.take_subset _ _ hq)
        have : q = p := List.inj_on_of_nodup_map hnd hql hp hq1
        exact this ▸ hq
      · intro hpT
        exact List.mem_map_of_mem Prod.fst hpT
    rw [enforce_buffer_limit_of_gt l cap hle]
    refine ⟨?_, ?_, ?_⟩
    · have hlen := foldl_removeId_length _ l hnd hndS hsubS
      have hklen : ((sortByTs l).take (l.length - cap)).length = l.length - cap := by
        rw [List.length_take, hperm.length_eq]
        omega
      rw [List.length_map, hklen] at hlen
      omega
    · intro p hp
      rw [foldl_removeId_mem _ l p hnd]
      rw [hmemTake p hp]
      tauto
    · intro p hp q hq
      rw [foldl_removeId_mem _ l q hnd] at hq
      have hql : q ∈ l := hq.1
      have hqs : q ∈ sortByTs l := hperm.mem_iff.mpr hql
      have hqd : q ∈ (sortByTs l).drop (l.length - cap) := by
        have := (List.take_append_drop (l.length - cap) (sortByTs l)) ▸ hqs
        rcases List.mem_append.mp this with hqt | hqd
        · exact absurd ((hmemTake q hql).mpr hqt) hq.2
        · exact hqd
      have hpw := sortByTs_pairwise l
      rw [← List.take_append_drop (l.length - cap) (sortByTs l)] at hpw
      exact (List.pairwise_append.mp hpw).2.2 p hp q hqd

theorem C2_enforce_limit_amended_witness :
    (enforce_buffer_limit [(1, 10), (2, 5), (3, 7)] 2).length = 2 :=
  ((C2_enforce_limit_amended [(1, 10), (2, 5), (3, 7)] 2 (by decide)).2
    (by decide)).1

/-! ### The processor task (`manager.rs` 520-591)

One cooperative task drains the bounded channel.  For each `(data, timestamp)`
item it parses, inserts on success, and then *tries* to lock the shared stats
(`stats.try_lock()`); only if the lock is free does it update the stats and
send a snapshot on the broadcaster (`stats_tx_clone.send`, line 575).  The
environment of a step — parse outcome, whether the `try_lock` succeeds, and
the wall clock — is made explicit. -/

/-- Result of `parser.parse_packet` for one channel item, together with
`data.len()` (stored in `data_len` before the data is moved, line 525). -/
inductive DecodeOutcome where
  | ok (p : Packet) (data_len : Nat)
  | err
deriving Repr, DecidableEq

/-- The environment of one processor iteration: the parse outcome, whether
`stats.try_lock()` succeeds at this iteration, and the wall clock now. -/
structure ProcItem where
  outcome : DecodeOutcome
  lockAcquired : Bool
  now : Nat
deriving Repr, DecidableEq

/-- Processor-task state: the shared stats, the store (iteration order taken
as insertion order), the id counter, and ghost observables — how many packets
were inserted, the sum of their byte lengths, and the wall-clock times of the
`stats_tx.send` calls. -/
structure ProcState where
  stats : CaptureStats
  store : List (Nat × Nat)
  nextId : Nat
  insertedCount : Nat
  insertedBytes : Nat
  published : List Nat
deriving Repr, DecidableEq

/-- One iteration of the processor loop body (`manager.rs` 523-587).
On parse success: assign the id, insert, enforce the buffer limit, and — only
if `try_lock` succeeded — update the stats and send a snapshot on the
broadcaster.  On parse error: increment `errors`, again only under a
successful `try_lock`. -/
def procStep (buffer_size : Nat) (st : ProcState) (it : ProcItem) : ProcState :=
  match it.outcome with
  | .ok p len =>
      let id := st.nextId
      let store := enforce_buffer_limit (st.store ++ [(id, p.timestamp)]) buffer_size
      if it.lockAcquired then
        { st with
          stats := statsUpdateOnPacket st.stats p len,
          store := store, nextId := id + 1,
          insertedCount := st.insertedCount + 1,
          insertedBytes := st.insertedBytes + len,
          published := st.published ++ [it.now] }
      else
        { st with
          store := store, nextId := id + 1,
          insertedCount := st.insertedCount + 1,
          insertedBytes := st.insertedBytes + len }
  | .err =>
      if it.lockAcquired then { st with stats := statsOnError st.stats } else st

/-- Processor state at the start of a capture session: stats reset with
`start_time` set (`manager.rs` 493-495), empty store, empty ghost logs. -/
def procInit (startTime : Nat) : ProcState :=
  { stats := { CaptureStats.default with start_time := some startTime },
    store := [], nextId := 1, insertedCount := 0, insertedBytes := 0,
    published := [] }

/-- Run the processor over a finite trace of channel items. -/
def procRun (buffer_size : Nat) (st : ProcState) (trace : List ProcItem) :
    ProcState :=
  trace.foldl (procStep buffer_size) st

/-- `CaptureManager::broadcast_stats_throttled` (`manager.rs` 994-1013):
publish only if at least `interval_ms` of wall clock has elapsed since the
last publish, updating the last-publish instant.  Returns (did-publish,
new last-publish instant).  NOTE: nothing in the repository ever calls this
function — the processor task sends directly on `stats_tx` for every decoded
packet (line 575). -/
def broadcast_stats_throttled (last_broadcast now interval_ms : Nat) :
    Bool × Nat :=
  if interval_ms ≤ now - last_broadcast then (true, now) else (false, last_broadcast)

/-- C1 (evaluation at the failing input): two packets decoded 50 ms apart,
with the stats lock free both times, produce two broadcaster publishes at
times 100 and 150 — two publishes inside one 1000 ms window.  The processor
task calls `stats_tx.send` unconditionally on every decoded packet and never
calls `broadcast_stats_throttled`, so the once-per-1000 ms throttle the claim
describes does not happen. -/
theorem C1_publish_every_packet_bug :
    (procRun 1000 (procInit 0)
        [⟨.ok samplePacket 60, true, 100⟩, ⟨.ok samplePacket 60, true, 150⟩]).published
      = [100, 150] ∧ 150 - 100 < 1000 := by decide

/-- C3 counterexample: one successfully decoded packet whose `try_lock`
fails (the mutex momentarily contended, e.g. by `get_stats`): the packet is
inserted into the store (`insertedCount = 1`) but the stats update is
silently skipped (`total_packets = 0`), so the claimed equality and the
"never skipped" linearization both fail. -/
theorem C3_try_lock_skip_counterexample :
    (procRun 1000 (procInit 0) [⟨.ok samplePacket 60, false, 0⟩]).insertedCount = 1 ∧
    (procRun 1000 (procInit 0) [⟨.ok samplePacket 60, false, 0⟩]).stats.total_packets = 0 := by
  decide

theorem procStep_locked_invariant (buffer_size : Nat) (st : ProcState)
    (it : ProcItem) (hl : it.lockAcquired = true)
    (hp : st.stats.total_packets = st.insertedCount)
    (hb : st.stats.total_bytes = st.insertedBytes) :
    (procStep buffer_size st it).stats.total_packets
        = (procStep buffer_size st it).insertedCount ∧
    (procStep buffer_size st it).stats.total_bytes
        = (procStep buffer_size st it).insertedBytes := by
  cases hout : it.outcome with
  | ok p len =>
      simp only [procStep, hout, hl, if_pos]
      exact ⟨by rw [statsUpdateOnPacket_total, hp],
             by rw [statsUpdateOnPacket_bytes, hb]⟩
  | err =>
      simp only [procStep, hout, hl, if_pos]
      exact ⟨hp, hb⟩

theorem procRun_locked_invariant (buffer_size : Nat) (trace : List ProcItem) :
    ∀ st : ProcState, (∀ it ∈ trace, it.lockAcquired = true) →
    st.stats.total_packets = st.insertedCount →
    st.stats.total_bytes = st.insertedBytes →
    (procRun buffer_size st trace).stats.total_packets
        = (procRun buffer_size st trace).insertedCount ∧
    (procRun buffer_size st trace).stats.total_bytes
        = (procRun buffer_size st trace).insertedBytes := by
  induction trace with
  | nil => intro st _ hp hb; exact ⟨hp, hb⟩
  | cons it rest ih =>
    intro st hlock hp hb
    have hl : it.lockAcquired = true := hlock it (List.mem_cons_self _ _)
    have hstep := procStep_locked_invariant buffer_size st it hl hp hb
    simpa only [procRun, List.foldl_cons] using
      ih (procStep buffer_size st it)
        (fun i hi => hlock i (List.mem_cons_of_mem _ hi)) hstep.1 hstep.2

/-- C3 (amended): for every sequence of consumed items in which every
`stats.try_lock()` attempt succeeds, after each step the stats aggregate
satisfies `total_packets == inserted_count` and `total_bytes == sum of the
inserted byte lengths`.  In general a contended `try_lock` silently skips
that packet's stats update (the update is not retried), so `total_packets`
can lag the insert count. -/
theorem C3_stats_track_inserts_amended (buffer_size startTime : Nat)
    (trace : List ProcItem) (hlock : ∀ it ∈ trace, it.lockAcquired = true) :
    (procRun buffer_size (procInit startTime) trace).stats.total_packets
        = (procRun buffer_size (procInit startTime) trace).insertedCount ∧
    (procRun buffer_size (procInit startTime) trace).stats.total_bytes
        = (procRun buffer_size (procInit startTime) trace).insertedBytes :=
  procRun_locked_invariant buffer_size trace (procInit startTime) hlock rfl rfl

theorem C3_stats_track_inserts_amended_witness :
    (procRun 1000 (procInit 0) [⟨.ok samplePacket 60, true, 5⟩]).stats.total_packets
        = (procRun 1000 (procInit 0) [⟨.ok samplePacket 60, true, 5⟩]).insertedCount :=
  (C3_stats_track_inserts_amended 1000 0 [⟨.ok samplePacket 60, true, 5⟩]
    (by decide)).1

/-! ### The blocking capture loop (`CaptureManager::run_capture`,
`manager.rs` 633-682)

The `spawn_blocking` closure loops: check `STOP_REQUESTED`; call
`capture.next_packet()`; on success forward the bytes (terminating with an
error if the channel is closed); on a timeout error continue; on
"no more packets" return `Ok`; on any other error re-check `STOP_REQUESTED`
(returning `Ok` if set) and otherwise just log and continue.  Each iteration
is driven by one environment event. -/

/-- Outcome of one `next_packet()` call, plus the channel/stop-flag state the
iteration observes: `chanOpen` is whether `tx.blocking_send` succeeds, and
`stopNow` is the value of `STOP_REQUESTED` at the error branch's re-check. -/
inductive NextPacketOutcome where
  | ok (len : Nat) (chanOpen : Bool)
  | errTimeout
  | errNoMore
  | errOther (stopNow : Bool)
deriving Repr, DecidableEq

/-- One capture-loop iteration's environment: the `STOP_REQUESTED` value at
the top-of-loop check, then the `next_packet()` outcome. -/
structure CapIter where
  stopFlag : Bool
  outcome : NextPacketOutcome
deriving Repr, DecidableEq

/-- How the capture loop left (or did not leave) its loop, with the byte
lengths of the packets it forwarded on the channel. -/
inductive CapResult where
  | running (sent : List Nat)
  | stoppedOk (sent : List Nat)
  | stoppedErr (sent : List Nat)
deriving Repr, DecidableEq

/-- The capture loop (`manager.rs` 637-681) over a finite event trace;
exhausting the trace with no exit taken leaves the loop `running`. -/
def runCaptureLoop (sent : List Nat) : List CapIter → CapResult
  | [] => .running sent
  | it :: rest =>
    if it.stopFlag then .stoppedOk sent
    else match it.outcome with
      | .ok len chanOpen =>
          if chanOpen then runCaptureLoop (sent ++ [len]) rest
          else .stoppedErr sent
      | .errTimeout => runCaptureLoop sent rest
      | .errNoMore => .stoppedOk sent
      | .errOther stopNow =>
          if stopNow then .stoppedOk sent
          else runCaptureLoop sent rest

/-- C5 counterexample: five consecutive `next_packet()` errors that are
neither timeouts nor closed-channel errors (stop not requested) leave the
loop still running — there is no consecutive-error counter in the code, so
the loop does not terminate at 5 errors as the claim states (nor does it
sleep; it just logs and continues). -/
theorem C5_no_error_counter_counterexample :
    runCaptureLoop []
        (List.replicate 5 { stopFlag := false, outcome := .errOther false })
      = .running [] := by decide

/-- C5 (amended): on a `next_packet()` error that is neither a timeout nor a
closed channel, the loop checks `STOP_REQUESTED` again: if it is set the loop
terminates with `Ok`, and otherwise it logs the error and continues
unchanged — there is no consecutive-error counter, no termination threshold
of 5, and no 100 ms sleep.  (A `stopFlag` observed at the top of the
iteration also terminates with `Ok`.) -/
theorem C5_other_errors_skipped_amended (sent : List Nat) (rest : List CapIter) :
    runCaptureLoop sent ({ stopFlag := false, outcome := .errOther false } :: rest)
        = runCaptureLoop sent rest ∧
    runCaptureLoop sent ({ stopFlag := false, outcome := .errOther true } :: rest)
        = .stoppedOk sent ∧
    runCaptureLoop sent ({ stopFlag := true, outcome := .errOther false } :: rest)
        = .stoppedOk sent := by
  refine ⟨?_, ?_, ?_⟩ <;> simp [runCaptureLoop]

/-! ### The capture manager (`manager.rs` 33-91, 131-613, 722-784)

`start_capture` / `stop_capture` / `get_status` on the manager's state.  The
environment of a `start` — whether `Capture::from_device`, `open()` and
`filter()` succeed, and the wall clock — is explicit.  The broadcaster is
abstracted to a generation counter (`broadcasterGen`, bumped whenever
`stats_tx` is replaced by a fresh channel) plus a per-call count of messages
sent on it. -/

/-- `AppConfig` (`src/backend/src/models/config.rs`). -/
structure AppConfig where
  interface : Option String
  port : Nat
  promiscuous : Bool
  buffer_size : Nat
  filter : Option String
deriving Repr, DecidableEq

/-- The manager's own state: configuration, the packet store (as `(id,
timestamp)` pairs), the stored stats, the `is_running` atomic, the
broadcaster generation, and whether a capture-task join handle is held. -/
structure MgrState where
  config : AppConfig
  packets : List (Nat × Nat)
  stats : CaptureStats
  is_running : Bool
  broadcasterGen : Nat
  hasCaptureTask : Bool
deriving Repr, DecidableEq

/-- `CaptureManager::new` (`manager.rs` 73-91). -/
def CaptureManager.new (config : AppConfig) : MgrState :=
  { config := config, packets := [], stats := CaptureStats.default,
    is_running := false, broadcasterGen := 0, hasCaptureTask := false }

/-- `CaptureManager::get_status` (`manager.rs` 782-784):
`self.is_running.load(Ordering::SeqCst)`. -/
def get_status (s : MgrState) : Bool := s.is_running

/-- The error kinds `start_capture` can return; `noInterfaceSelected` is the
spec's *ConfigError* ("No interface selected for capture", line 140), the
other two are *CaptureError*s (lines 603, 609). -/
inductive StartError where
  | alreadyRunning
  | noInterfaceSelected
  | deviceCreateFailed
  | openFailed
deriving Repr, DecidableEq

/-- Environment of one `start_capture` call: whether device creation, handle
opening and filter application succeed, and the wall clock. -/
structure StartEnv where
  deviceOk : Bool
  openOk : Bool
  filterOk : Bool
  now : Nat
deriving Repr, DecidableEq

/-- Result of a `start_capture` call: the returned value, the manager state
after the call, how many messages were sent on the broadcaster during the
call (always 0 — `start_capture` never sends), and whether a
"Failed to apply filter" warning was logged. -/
structure StartResult where
  result : Except StartError Unit
  state : MgrState
  sent : Nat
  filterWarned : Bool

/-- `CaptureManager::start_capture` (`manager.rs` 131-173 and the
non-Windows flow 450-613).  Key source facts mirrored here:
* the running check (133) and the interface check (138-141) happen before
  any mutation, so both error paths leave the state untouched;
* on the success path the store is cleared, the stats reset with
  `start_time := now`, and the broadcaster rebuilt (146-153) before the
  device is opened;
* a filter-application failure is only logged as a warning (486-491) — the
  call still proceeds to spawn the tasks and return `Ok`;
* `is_running` is set to `true` (509) before the call returns. -/
def start_capture (s : MgrState) (env : StartEnv) : StartResult :=
  if s.is_running then ⟨.error .alreadyRunning, s, 0, false⟩
  else
    match s.config.interface with
    | none => ⟨.error .noInterfaceSelected, s, 0, false⟩
    | some _iface =>
      let s1 := { s with
        packets := [],
        stats := { CaptureStats.default with start_time := some env.now },
        broadcasterGen := s.broadcasterGen + 1 }
      if env.deviceOk = false then ⟨.error .deviceCreateFailed, s1, 0, false⟩
      else if env.openOk = false then ⟨.error .openFailed, s1, 0, false⟩
      else
        let warned := s.config.filter.isSome && env.filterOk = false
        let s2 := { s1 with
          stats := { CaptureStats.default with start_time := some env.now } }
        let s3 := { s2 with is_running := true, hasCaptureTask := true }
        ⟨.ok (), s3, 0, warned⟩

/-- `stop_capture`'s error: "No capture is currently running" (line 726). -/
inductive StopError where
  | notRunning
deriving Repr, DecidableEq

/-- Environment of one `stop_capture` call: whether the 5 s join timed out,
and the wall clock. -/
structure StopEnv where
  joinTimedOut : Bool
  now : Nat
deriving Repr, DecidableEq

/-- Result of a `stop_capture` call: the returned value, the final state,
the number of messages sent on the broadcaster, and the manager states
observable at the call's await points (the stop-signal send and the
up-to-5 s join wait). -/
structure StopResult where
  result : Except StopError Unit
  state : MgrState
  sent : Nat
  during : List MgrState

/-- `CaptureManager::stop_capture` (`manager.rs` 722-779).  Key source facts:
* the not-running check (725-727) precedes all effects;
* `is_running.store(false)` (730) is the FIRST effect — before the stop
  signal is sent and before the up-to-5 s join wait, so the states at both
  await points already have the flag cleared (whether or not the join times
  out, the code proceeds identically apart from a warning log);
* `end_time` is set only when `start_time` is present (754-766; the final
  `f64` rate computation is unmodelled);
* one final stats snapshot is sent (770) and the broadcaster rebuilt
  (774-775) before returning `Ok`. -/
def stop_capture (s : MgrState) (env : StopEnv) : StopResult :=
  if s.is_running = false then ⟨.error .notRunning, s, 0, []⟩
  else
    let s1 := { s with is_running := false }
    let s2 := { s1 with hasCaptureTask := false }
    let s3 := { s2 with stats :=
      match s2.stats.start_time with
      | some _ => { s2.stats with end_time := some env.now }
      | none => s2.stats }
    let s4 := { s3 with broadcasterGen := s3.broadcasterGen + 1 }
    ⟨.ok (), s4, 1, [s1, s1]⟩

/-- C8: a `start()` while Idle with no interface configured returns the
ConfigError ("No interface selected for capture") and changes nothing at
all: the state (store, stats, running flag, broadcaster) is exactly the
pre-call state and no message is sent on the broadcaster.  The interface
check (`manager.rs` 138-141) precedes every mutation. -/
theorem C8_no_interface_noop (s : MgrState) (env : StartEnv)
    (hrun : s.is_running = false) (hiface : s.config.interface = none) :
    start_capture s env = ⟨.error .noInterfaceSelected, s, 0, false⟩ := by
  unfold start_capture
  rw [hrun, hiface]
  rfl

theorem C8_no_interface_noop_witness :
    start_capture
        (CaptureManager.new
          { interface := none, port := 3000, promiscuous := false,
            buffer_size := 1000, filter := none })
        { deviceOk := true, openOk := true, filterOk := true, now := 0 }
      = ⟨.error .noInterfaceSelected,
         CaptureManager.new
          { interface := none, port := 3000, promiscuous := false,
            buffer_size := 1000, filter := none }, 0, false⟩ :=
  C8_no_interface_noop _ _ rfl rfl

/-- An idle manager configured with an interface and a filter. -/
def c4State : MgrState :=
  CaptureManager.new
    { interface := some "eth0", port := 3000, promiscuous := false,
      buffer_size := 1000, filter := some "tcp port 80" }

/-- An environment where the handle opens fine but applying the filter
fails. -/
def c4Env : StartEnv :=
  { deviceOk := true, openOk := true, filterOk := false, now := 7 }

/-- C4 counterexample: with the handle opened successfully and filter
application failing, `start()` does NOT return a CaptureError and does NOT
return to Idle — it logs a "Failed to apply filter" warning
(`manager.rs` 489) and proceeds: the call returns `Ok` and the manager is
Running, with the filter silently dropped. -/
theorem C4_filter_failure_counterexample :
    (start_capture c4State c4Env).result = .ok () ∧
    (start_capture c4State c4Env).state.is_running = true ∧
    (start_capture c4State c4Env).filterWarned = true :=
  ⟨rfl, rfl, rfl⟩

/-- C4 (amended): when the capture handle opens successfully but applying
the configured filter fails, `start()` logs a warning and continues without
the filter: it returns `Ok` and the manager transitions to Running — the
filter failure is swallowed, not surfaced. -/
theorem C4_filter_failure_warns_amended (s : MgrState) (env : StartEnv)
    (i : String)
    (hrun : s.is_running = false) (hiface : s.config.interface = some i)
    (hdev : env.deviceOk = true) (hopen : env.openOk = true) :
    (start_capture s env).result = .ok () ∧
    (start_capture s env).state.is_running = true := by
  unfold start_capture
  rw [hrun, hiface]
  simp [hdev, hopen]

theorem C4_filter_failure_warns_amended_witness :
    (start_capture c4State c4Env).state.is_running = true :=
  (C4_filter_failure_warns_amended c4State c4Env "eth0" rfl rfl rfl rfl).2

/-- A start environment where every step succeeds. -/
def c6StartEnv : StartEnv :=
  { deviceOk := true, openOk := true, filterOk := true, now := 3 }

/-- A manager in the Running state (as left by a successful start). -/
def c6Running : MgrState :=
  (start_capture c4State c6StartEnv).state

theorem start_capture_ok_running (s : MgrState) (env : StartEnv) :
    (start_capture s env).result = .ok () →
    (start_capture s env).state.is_running = true := by
  unfold start_capture
  by_cases hr : s.is_running
  · simp [hr]
  · cases hi : s.config.interface with
    | none => simp [hr, hi]
    | some i =>
      by_cases hd : env.deviceOk = false
      · simp [hr, hi, hd]
      · by_cases ho : env.openOk = false
        · simp [hr, hi, hd, ho]
        · simp [hr, hi, hd, ho]

/-- C6: `status()` is `true` from the moment a successful `start()` returns
(the flag is stored at `manager.rs` 509, before the return) until `stop()`
is invoked, and `false` outside that window: on a fresh manager, and — since
`stop_capture` clears the flag as its very first effect (line 730) — at
every await point inside `stop()` (the stop-signal send and the up-to-5 s
join wait, timed out or not) as well as after `stop()` returns. -/
theorem C6_status_window (cfg : AppConfig) (s sr : MgrState)
    (se : StartEnv) (pe : StopEnv) :
    get_status (CaptureManager.new cfg) = false
    ∧ ((start_capture s se).result = .ok () →
        get_status (start_capture s se).state = true)
    ∧ (sr.is_running = true →
        (stop_capture sr pe).result = .ok ()
        ∧ (∀ m ∈ (stop_capture sr pe).during, get_status m = false)
        ∧ get_status (stop_capture sr pe).state = false) := by
  refine ⟨rfl, start_capture_ok_running s se, ?_⟩
  intro h
  unfold stop_capture
  rw [h]
  refine ⟨rfl, ?_, ?_⟩
  · intro m hm
    cases hm with
    | head => rfl
    | tail _ hrest =>
      cases hrest with
      | head => rfl
      | tail _ hnil => cases hnil
  · rfl

theorem C6_status_window_witness :
    get_status (stop_capture c6Running { joinTimedOut := false, now := 9 }).state
      = false :=
  ((C6_status_window
      { interface := none, port := 0, promiscuous := false,
        buffer_size := 100, filter := none }
      c4State c6Running c4Env { joinTimedOut := false, now := 9 }).2.2 (by rfl)).2.2

/-! ### `CaptureManager::generate_info` (`manager.rs` 881-902) -/

/-- The info string of a packet summary.  The Rust `match packet.protocol
.as_str()` is an if-chain here; for TCP the port checks are in source order:
destination 80/8080 first, then source 80/8080, then 443 on either side. -/
def generate_info (packet : Packet) : String :=
  if packet.protocol = "TCP" then
    match packet.source_port, packet.destination_port with
    | some sport, some dport =>
      if dport = 80 ∨ dport = 8080 then "HTTP Request"
      else if sport = 80 ∨ sport = 8080 then "HTTP Response"
      else if dport = 443 ∨ sport = 443 then "HTTPS Traffic"
      else "TCP Segment"
    | _, _ => "TCP Segment"
  else if packet.protocol = "UDP" then "UDP Datagram"
  else if packet.protocol = "ICMP" then "ICMP Message"
  else if packet.protocol = "DNS" then "DNS Query/Response"
  else if packet.protocol = "ARP" then "ARP Request/Reply"
  else packet.protocol ++ " Packet"

/-- A TCP packet from source port 443 to destination port 80. -/
def c9Packet : Packet :=
  { samplePacket with source_port := some 443, destination_port := some 80 }

/-- C9 counterexample: a TCP packet with source port 443 and destination
port 80 — both ports present and one of them 443 — yields "HTTP Request",
not "HTTPS Traffic": the destination-port 80/8080 check precedes the 443
check in `generate_info`, so the claim fails for these values of the other
port. -/
theorem C9_https_precedence_counterexample :
    generate_info c9Packet = "HTTP Request" ∧
    generate_info c9Packet ≠ "HTTPS Traffic" := by
  exact ⟨rfl, by decide⟩

/-- C9 (amended): a decoded TCP packet with both ports present and either
port equal to 443 yields "HTTPS Traffic" provided neither port is 80 or
8080 — the earlier "HTTP Request" (dst ∈ {80, 8080}) and "HTTP Response"
(src ∈ {80, 8080}) checks take precedence over the 443 check. -/
theorem C9_https_info_amended (p : Packet) (sport dport : Nat)
    (hproto : p.protocol = "TCP")
    (hs : p.source_port = some sport) (hd : p.destination_port = some dport)
    (h443 : sport = 443 ∨ dport = 443)
    (hd80 : dport ≠ 80) (hd8080 : dport ≠ 8080)
    (hs80 : sport ≠ 80) (hs8080 : sport ≠ 8080) :
    generate_info p = "HTTPS Traffic" := by
  rcases h443 with h | h
  · subst h
    simp [generate_info, hproto, hs, hd, hd80, hd8080]
  · subst h
    simp [generate_info, hproto, hs, hd, hs80, hs8080]

theorem C9_https_info_amended_witness :
    generate_info
        { samplePacket with source_port := some 50000,
                            destination_port := some 443 }
      = "HTTPS Traffic" :=
  C9_https_info_amended _ 50000 443 rfl rfl rfl (Or.inr rfl)
    (by decide) (by decide) (by decide) (by decide)

/-! ### The frame decoder (`PacketParser::parse_packet`, `parser.rs` 30-367)

Byte sequences are `List Nat` (each entry one octet).  The `pnet`
header-view constructors (`EthernetPacket::new`, `Ipv4Packet::new`, ...)
return `None` exactly when the buffer is shorter than the fixed minimum
header size; field getters read at fixed offsets.  The JSON `headers`
bookkeeping of the Rust code is not modelled (no claim touches it).
`byteAt` reads a byte at an offset — the callers only use offsets below the
already-checked minimum length, so the default 0 is never reached. -/

def byteAt (data : List Nat) (i : Nat) : Nat := data.getD i 0

/-- A big-endian 16-bit field at offset `i`. -/
def read16 (data : List Nat) (i : Nat) : Nat :=
  byteAt data i * 256 + byteAt data (i + 1)

def hexDigitChar (n : Nat) : Char :=
  if n < 10 then Char.ofNat (48 + n) else Char.ofNat (87 + n)

/-- One byte as two lowercase hex digits. -/
def byteToHex (b : Nat) : String :=
  String.mk [hexDigitChar (b / 16 % 16), hexDigitChar (b % 16)]

/-- `PacketParser::format_mac` / `pnet::util::MacAddr`'s display form:
colon-separated lowercase hex octets. -/
def formatMac (bytes : List Nat) : String :=
  String.intercalate ":" (bytes.map byteToHex)

/-- `if !payload.is_empty() { packet.payload = Some(payload) }` — the
pattern shared by the TCP/UDP/ICMP sub-parsers. -/
def withPayload (packet : Packet) (payload : List Nat) : Packet :=
  if payload.isEmpty then packet else { packet with payload := some payload }

/-- `PacketParser::parse_tcp` (`parser.rs` 237-291): fails below the 20-byte
minimum TCP header; sets protocol/ports; payload starts at
`data_offset * 4`. -/
def parse_tcp (data : List Nat) (packet : Packet) : Except String Packet :=
  if data.length < 20 then .error "Failed to parse TCP packet"
  else .ok (withPayload
    { packet with
      protocol := "TCP",
      source_port := some (read16 data 0),
      destination_port := some (read16 data 2) }
    (data.drop (byteAt data 12 / 16 * 4)))

/-- The DNS reassignment at the end of `parse_udp` (`parser.rs` 324-327). -/
def dnsRelabel (packet : Packet) (sport dport : Nat) : Packet :=
  if sport = 53 ∨ dport = 53 then { packet with protocol := "DNS" } else packet

/-- `PacketParser::parse_udp` (`parser.rs` 294-330): fails below the 8-byte
UDP header; sets protocol/ports and the post-header payload; relabels the
protocol `DNS` when either port is 53. -/
def parse_udp (data : List Nat) (packet : Packet) : Except String Packet :=
  if data.length < 8 then .error "Failed to parse UDP packet"
  else .ok (dnsRelabel
    (withPayload
      { packet with
        protocol := "UDP",
        source_port := some (read16 data 0),
        destination_port := some (read16 data 2) }
      (data.drop 8))
    (read16 data 0) (read16 data 2))

/-- `PacketParser::parse_icmp` (`parser.rs` 333-361): fails below the 4-byte
ICMP header; sets the protocol and the post-header payload. -/
def parse_icmp (data : List Nat) (packet : Packet) : Except String Packet :=
  if data.length < 4 then .error "Failed to parse ICMP packet"
  else .ok (withPayload { packet with protocol := "ICMP" } (data.drop 4))

/-- `PacketParser::parse_transport_protocol` (`parser.rs` 212-234):
dispatch on the IP next-protocol number (TCP 6, UDP 17, ICMP 1); other
protocols become `IP(<number>)` with the transport bytes as payload. -/
def parse_transport_protocol (proto : Nat) (data : List Nat)
    (packet : Packet) : Except String Packet :=
  if proto = 6 then parse_tcp data packet
  else if proto = 17 then parse_udp data packet
  else if proto = 1 then parse_icmp data packet
  else .ok
    { packet with
      protocol := "IP(" ++ toString proto ++ ")",
      payload := some data }

/-- `PacketParser::parse_ipv4` (`parser.rs` 104-139): fails below the
20-byte minimum IPv4 header; source at offset 12, destination at 16, next
protocol at 9; the transport payload starts at `header_length * 4` (the low
nibble of byte 0, in 32-bit words). -/
def parse_ipv4 (data : List Nat) (packet : Packet) : Except String Packet :=
  if data.length < 20 then .error "Failed to parse IPv4 packet"
  else parse_transport_protocol (byteAt data 9)
    (data.drop (byteAt data 0 % 16 * 4))
    { packet with
      source_ip := some (.v4 (byteAt data 12) (byteAt data 13)
        (byteAt data 14) (byteAt data 15)),
      destination_ip := some (.v4 (byteAt data 16) (byteAt data 17)
        (byteAt data 18) (byteAt data 19)) }

/-- `PacketParser::parse_ipv6` (`parser.rs` 142-174): fails below the fixed
40-byte IPv6 header; source bytes 8-23, destination 24-39, next header at
6; the transport payload starts at byte 40. -/
def parse_ipv6 (data : List Nat) (packet : Packet) : Except String Packet :=
  if data.length < 40 then .error "Failed to parse IPv6 packet"
  else parse_transport_protocol (byteAt data 6) (data.drop 40)
    { packet with
      source_ip := some (.v6 ((data.drop 8).take 16)),
      destination_ip := some (.v6 ((data.drop 24).take 16)) }

/-- `PacketParser::parse_arp` (`parser.rs` 177-209): fails below the 28-byte
ARP packet; sets only the protocol tag (addresses and ports stay as the
Ethernet layer left them). -/
def parse_arp (data : List Nat) (packet : Packet) : Except String Packet :=
  if data.length < 28 then .error "Failed to parse ARP packet"
  else .ok { packet with protocol := "ARP" }

/-- The `Packet` value `parse_packet` builds right after the Ethernet layer
(`parser.rs` 47-63): both MAC fields are set to `Some` here, before any
EtherType dispatch.  `id` and `timestamp` are placeholders overwritten by
the processor. -/
def ethInit (data : List Nat) (iface : String) : Packet :=
  { id := 0, timestamp := 0, interface := iface, length := data.length,
    protocol := "Unknown", source_ip := none, destination_ip := none,
    source_port := none, destination_port := none,
    source_mac := some (formatMac ((data.drop 6).take 6)),
    destination_mac := some (formatMac (data.take 6)),
    raw_data := data, payload := none }

/-- `PacketParser::parse_packet` (`parser.rs` 30-101): fail below the
14-byte Ethernet header; extract MACs and the EtherType (big-endian bytes
12-13); dispatch on IPv4 `0x0800`, IPv6 `0x86DD`, ARP `0x0806`, else tag
`Other (<ethertype>)` with the Ethernet payload. -/
def parse_packet (data : List Nat) (iface : String) : Except String Packet :=
  if data.length < 14 then .error "Failed to parse Ethernet packet"
  else if read16 data 12 = 0x0800 then parse_ipv4 (data.drop 14) (ethInit data iface)
  else if read16 data 12 = 0x86DD then parse_ipv6 (data.drop 14) (ethInit data iface)
  else if read16 data 12 = 0x0806 then parse_arp (data.drop 14) (ethInit data iface)
  else .ok
    { ethInit data iface with
      protocol := "Other (" ++ toString (read16 data 12) ++ ")",
      payload := some (data.drop 14) }

theorem withPayload_mac (packet : Packet) (payload : List Nat) :
    (withPayload packet payload).source_mac = packet.source_mac ∧
    (withPayload packet payload).destination_mac = packet.destination_mac := by
  unfold withPayload
  split <;> exact ⟨rfl, rfl⟩

theorem dnsRelabel_mac (packet : Packet) (sport dport : Nat) :
    (dnsRelabel packet sport dport).source_mac = packet.source_mac ∧
    (dnsRelabel packet sport dport).destination_mac = packet.destination_mac := by
  unfold dnsRelabel
  split <;> exact ⟨rfl, rfl⟩

theorem parse_tcp_mac (data : List Nat) (q p : Packet)
    (h : parse_tcp data q = .ok p) :
    p.source_mac = q.source_mac ∧ p.destination_mac = q.destination_mac := by
  unfold parse_tcp at h
  split at h
  · exact absurd h (by simp)
  · injection h with h
    subst h
    exact withPayload_mac _ _

theorem parse_udp_mac (data : List Nat) (q p : Packet)
    (h : parse_udp data q = .ok p) :
    p.source_mac = q.source_mac ∧ p.destination_mac = q.destination_mac := by
  unfold parse_udp at h
  split at h
  · exact absurd h (by simp)
  · injection h with h
    subst h
    exact ⟨(dnsRelabel_mac _ _ _).1.trans (withPayload_mac _ _).1,
           (dnsRelabel_mac _ _ _).2.trans (withPayload_mac _ _).2⟩

theorem parse_icmp_mac (data : List Nat) (q p : Packet)
    (h : parse_icmp data q = .ok p) :
    p.source_mac = q.source_mac ∧ p.destination_mac = q.destination_mac := by
  unfold parse_icmp at h
  split at h
  · exact absurd h (by simp)
  · injection h with h
    subst h
    exact withPayload_mac _ _

theorem parse_transport_protocol_mac (proto : Nat) (data : List Nat)
    (q p : Packet) (h : parse_transport_protocol proto data q = .ok p) :
    p.source_mac = q.source_mac ∧ p.destination_mac = q.destination_mac := by
  unfold parse_transport_protocol at h
  split at h
  · exact parse_tcp_mac data q p h
  · split at h
    · exact parse_udp_mac data q p h
    · split at h
      · exact parse_icmp_mac data q p h
      · injection h with h
        subst h
        exact ⟨rfl, rfl⟩

theorem parse_ipv4_mac (data : List Nat) (q p : Packet)
    (h : parse_ipv4 data q = .ok p) :
    p.source_mac = q.source_mac ∧ p.destination_mac = q.destination_mac := by
  unfold parse_ipv4 at h
  split at h
  · exact absurd h (by simp)
  · have hm := parse_transport_protocol_mac _ _ _ _ h
    exact ⟨hm.1, hm.2⟩

theorem parse_ipv6_mac (data : List Nat) (q p : Packet)
    (h : parse_ipv6 data q = .ok p) :
    p.source_mac = q.source_mac ∧ p.destination_mac = q.destination_mac := by
  unfold parse_ipv6 at h
  split at h
  · exact absurd h (by simp)
  · have hm := parse_transport_protocol_mac _ _ _ _ h
    exact ⟨hm.1, hm.2⟩

theorem parse_arp_mac (data : List Nat) (q p : Packet)
    (h : parse_arp data q = .ok p) :
    p.source_mac = q.source_mac ∧ p.destination_mac = q.destination_mac := by
  unfold parse_arp at h
  split at h
  · exact absurd h (by simp)
  · injection h with h
    subst h
    exact ⟨rfl, rfl⟩

/-- C10: whenever `parse_packet` returns `Ok`, the resulting packet has both
`source_mac` and `destination_mac` present: the Ethernet layer sets both to
`Some` before the EtherType dispatch (`parser.rs` 57-58), and no branch —
IPv4, IPv6, ARP, or the `Other` fallback — ever clears them, even though the
model declares both fields optional. -/
theorem C10_parse_ok_macs (data : List Nat) (iface : String) (p : Packet)
    (h : parse_packet data iface = .ok p) :
    p.source_mac.isSome = true ∧ p.destination_mac.isSome = true := by
  unfold parse_packet at h
  split at h
  · exact absurd h (by simp)
  · split at h
    · have hm := parse_ipv4_mac _ _ _ h
      rw [hm.1, hm.2]
      exact ⟨rfl, rfl⟩
    · split at h
      · have hm := parse_ipv6_mac _ _ _ h
        rw [hm.1, hm.2]
        exact ⟨rfl, rfl⟩
      · split at h
        · have hm := parse_arp_mac _ _ _ h
          rw [hm.1, hm.2]
          exact ⟨rfl, rfl⟩
        · injection h with h
          subst h
          exact ⟨rfl, rfl⟩

/-- A 14-byte frame with EtherType `0x1234` (the `Other` fallback). -/
def c10Frame : List Nat := [0, 1, 2, 3, 4, 5, 6, 7, 8, 9, 10, 11, 18, 52]

theorem C10_parse_ok_macs_witness :
    (((parse_packet c10Frame "eth0").toOption.getD samplePacket).source_mac).isSome
      = true :=
  (C10_parse_ok_macs c10Frame "eth0"
    ((parse_packet c10Frame "eth0").toOption.getD samplePacket) (by rfl)).1

end RustShark
